import Mathlib

/-!
Shallow embedding of the Qkart backend cart service
(`src/services/cart.service.js`) and auth middleware
(`src/middlewares/auth.js`), with theorems settling the spec's claims.

JavaScript numbers are modelled as `Int` (the service only adds,
multiplies, compares and subtracts values in the exact-integer range).
Mongo documents are plain structures; `findOne` for the requesting
user's cart is modelled by passing that user's stored cart as an
`Option Cart`; `Product.findById` over the `products` collection is
modelled by `List.find?` on a `List Product`. A thrown `ApiError` is an
`Except.error`; since in the source every `throw` happens before every
`save()`, a thrown error leaves the persisted documents unchanged,
which the `persistedCart` / `runCheckout` wrappers make explicit.
-/

namespace Qkart

/-- The uniform error object (`src/utils/ApiError.js`): an HTTP status
code plus a message string. -/
structure ApiError where
  statusCode : Nat
  message : String
deriving Repr, DecidableEq

/-- A catalog product as consumed by the cart service: its Mongo `_id`
(modelled as `Nat`) and its `cost`. The remaining catalog fields
(name, category, rating, image) are never read by the verified
operations and are omitted. -/
structure Product where
  _id : Nat
  cost : Int
deriving Repr, DecidableEq

/-- Embeds `cartItemSchema` (src/models/cart.model.js): an embedded snapshot
of a product plus a quantity. -/
structure CartItem where
  product : Product
  quantity : Int
deriving Repr, DecidableEq

/-- Embeds `cartSchema` (src/models/cart.model.js): one cart per user email,
an array of cart items, and a payment-option string defaulting to
`config.default_payment_option`. -/
structure Cart where
  email : String
  cartItems : List CartItem
  paymentOption : String
deriving Repr, DecidableEq

/-- The fields of a user document that the cart service reads or
writes: identity email, wallet balance, shipping address. -/
structure User where
  email : String
  walletMoney : Int
  address : String
deriving Repr, DecidableEq

/-- Modelled from the spec: `config.default_address` lives in
`src/config/config.js`, which is not among the provided sources. Its
exact value is irrelevant to every claim (only equality of
`user.address` with it is ever tested). -/
def default_address : String := "ADDRESS_NOT_SET"

/-- Modelled from the spec: `config.default_payment_option`, the
schema default for `Cart.paymentOption`; the exact value is irrelevant
to every claim. -/
def default_payment_option : String := "PAYMENT_OPTION_DEFAULT"

/-- Embeds `getCartByUser` (cart.service.js lines 18-25): fetch the user's
cart, or throw 404 "User does not have a cart". -/
def getCartByUser (cartOpt : Option Cart) : Except ApiError Cart :=
  match cartOpt with
  | none => .error ⟨404, "User does not have a cart"⟩
  | some obtainCart => .ok obtainCart

/-- Embeds `addProductToCart` (cart.service.js lines 51-78). The product
lookup failure throws 400 first; an absent cart is created holding the
single new item (`Cart.create` either returns the created document or
rejects the promise, so the dead `!obtainCart` 500 branch after it is
not modelled); a duplicate product throws 400; otherwise the item is
pushed and the cart saved. The `Ok` value is the persisted cart. -/
def addProductToCart (user : User) (products : List Product)
    (cartOpt : Option Cart) (productId : Nat) (quantity : Int) :
    Except ApiError Cart :=
  match products.find? (fun p => p._id == productId) with
  | none => .error ⟨400, "Product doesn't exist in database"⟩
  | some product =>
    match cartOpt with
    | none =>
      .ok { email := user.email,
            cartItems := [{ product := product, quantity := quantity }],
            paymentOption := default_payment_option }
    | some obtainCart =>
      if obtainCart.cartItems.any (fun item => item.product._id == productId) then
        .error ⟨400, "Product already in cart. Use the cart sidebar to update or remove product from cart"⟩
      else
        .ok { obtainCart with
              cartItems := obtainCart.cartItems ++
                [{ product := product, quantity := quantity }] }

/-- Embeds `Array.prototype.findIndex`: index of the first element satisfying
the predicate, `none` in place of JavaScript's `-1`. -/
def findIndex (p : α → Bool) : List α → Option Nat
  | [] => none
  | a :: rest => if p a then some 0 else (findIndex p rest).map (· + 1)

/-- Embeds `cartItems[index].quantity = quantity`: overwrite the quantity of
the item at the given index, leaving the list unchanged when the index
is out of range. -/
def setQuantityAt (q : Int) : List CartItem → Nat → List CartItem
  | [], _ => []
  | item :: rest, 0 => { item with quantity := q } :: rest
  | item :: rest, n + 1 => item :: setQuantityAt q rest n

/-- Embeds `updateProductInCart` (cart.service.js lines 105-125): 400 if the
cart is absent, 400 if the product is not in the catalog, 400 if the
product is not already in the cart; otherwise the matching item's
quantity is overwritten and the cart saved. -/
def updateProductInCart (user : User) (products : List Product)
    (cartOpt : Option Cart) (productId : Nat) (quantity : Int) :
    Except ApiError Cart :=
  match cartOpt with
  | none => .error ⟨400, "User does not have a cart. Use POST to create cart and add a product"⟩
  | some obtainCart =>
    match products.find? (fun p => p._id == productId) with
    | none => .error ⟨400, "Product doesn't exist in database"⟩
    | some _ =>
      match findIndex (fun ele => ele.product._id == productId) obtainCart.cartItems with
      | some index =>
        .ok { obtainCart with
              cartItems := setQuantityAt quantity obtainCart.cartItems index }
      | none => .error ⟨400, "Product not in cart"⟩

/-- Embeds `deleteProductFromCart` (cart.service.js lines 144-161): 400 if
the cart is absent; the items are filtered by `product._id !=
productId` and, when the length is unchanged (nothing matched), 400
"Product not in cart" is thrown before any save, so the persisted cart
keeps its items; otherwise the filtered cart is saved. The source
returns `undefined`; the `Ok` value here is the persisted cart. -/
def deleteProductFromCart (user : User) (cartOpt : Option Cart)
    (productId : Nat) : Except ApiError Cart :=
  match cartOpt with
  | none => .error ⟨400, "User does not have a cart. Use POST to create cart and add a product"⟩
  | some obtainCart =>
    let newItems := obtainCart.cartItems.filter (fun item => item.product._id != productId)
    if obtainCart.cartItems.length == newItems.length then
      .error ⟨400, "Product not in cart"⟩
    else
      .ok { obtainCart with cartItems := newItems }

/-- Embeds the `totalCost` accumulation (cart.service.js lines 190-191):
`cartItems.forEach(item => totalCost += item.product.cost * item.quantity)`
starting from `0`. -/
def totalCost (items : List CartItem) : Int :=
  items.foldl (fun acc item => acc + item.product.cost * item.quantity) 0

/-- The pair of documents written by a successful checkout. -/
structure CheckoutResult where
  cart : Cart
  user : User
deriving Repr, DecidableEq

/-- Embeds `checkout` (cart.service.js lines 172-202): 404 if the cart is
absent, 400 on an empty cart, 400 if the user's address equals
`config.default_address`, 400 if the total strictly exceeds the wallet
balance; otherwise the cart's items are emptied and saved and the
wallet debited by the total and saved. (`hasSetNonDefaultAddress()` is
awaited into `boolVal` in the source but never used; the branch tests
`user.address === config.default_address` directly.) -/
def checkout (user : User) (cartOpt : Option Cart) :
    Except ApiError CheckoutResult :=
  match cartOpt with
  | none => .error ⟨404, "User has no Cart"⟩
  | some obtainCart =>
    if obtainCart.cartItems.length == 0 then
      .error ⟨400, "Cart has no items"⟩
    else if user.address == default_address then
      .error ⟨400, "User's address is not set"⟩
    else
      let t := totalCost obtainCart.cartItems
      if t > user.walletMoney then
        .error ⟨400, "Insufficient balance"⟩
      else
        .ok { cart := { obtainCart with cartItems := [] },
              user := { user with walletMoney := user.walletMoney - t } }

/-- The cart document stored after a service call: a thrown error
leaves the stored cart untouched (every `throw` in the source precedes
every `save()`); a successful call stores the saved cart. -/
def persistedCart (cartOpt : Option Cart) : Except ApiError Cart → Option Cart
  | .error _ => cartOpt
  | .ok c => some c

/-- Observable outcome of a checkout request: the response, the stored
cart, and the stored user document. -/
structure CheckoutOutcome where
  result : Except ApiError Unit
  cartOpt : Option Cart
  user : User
deriving Repr

/-- Runs `checkout` against the store: a thrown error leaves both the
cart and the user document unchanged (both saves are at the very end
of the source function); success persists the emptied cart and the
debited user. -/
def runCheckout (user : User) (cartOpt : Option Cart) : CheckoutOutcome :=
  match checkout user cartOpt with
  | .error e => ⟨.error e, cartOpt, user⟩
  | .ok r => ⟨.ok (), some r.cart, r.user⟩

/-- The token payload fields the auth middleware reads: `type` and
`exp`. A JavaScript payload may lack `exp`, so it is an `Option`;
the line `decoded.exp && decoded.exp < now` treats the number `0` as
falsy, which the model keeps by testing `e ≠ 0`. -/
structure TokenPayload where
  type : String
  exp : Option Int
deriving Repr, DecidableEq

/-- Outcome of `jwt.verify(token, secret)` (an external library call,
taken as a parameter of the gate): either it throws — the token is
malformed or its signature fails — or it returns the decoded
payload. -/
inductive TokenVerification where
  | malformed
  | decoded (payload : TokenPayload)
deriving Repr, DecidableEq

/-- Result of the auth gate: a 401 rejection with the source's message
string, or a pass-through to passport's identity resolution carrying
the decoded payload. -/
inductive AuthOutcome where
  | unauthorized (message : String)
  | proceed (payload : TokenPayload)
deriving Repr, DecidableEq

/-- Shape of `req.headers['authorization']` as the middleware
discriminates it: absent, present without the `Bearer ` prefix (both
rejected identically by `!authHeader || !authHeader.startsWith('Bearer ')`),
or `Bearer <token>` where `token` is the text after the 7-character
prefix (`authHeader.substring(7)`). -/
inductive AuthHeader where
  | missing
  | notBearer
  | bearer (token : String)
deriving Repr, DecidableEq

/-- Embeds `auth` (src/middlewares/auth.js lines 20-47), up to the passport
identity-resolution call: requires an `Authorization: Bearer ` header,
verifies the token, requires `decoded.type === 'access'`, and rejects
as expired only when `decoded.exp` is truthy (present and nonzero) and
less than the current Unix-seconds time. -/
def authGate (authHeader : AuthHeader)
    (verify : String → TokenVerification) (now : Int) : AuthOutcome :=
  match authHeader with
  | .missing => .unauthorized "No token provided"
  | .notBearer => .unauthorized "No token provided"
  | .bearer token =>
    match verify token with
    | .malformed => .unauthorized "Invalid token"
    | .decoded d =>
      if d.type ≠ "access" then .unauthorized "Not an access token"
      else
        match d.exp with
        | none => .proceed d
        | some e =>
          if e ≠ 0 ∧ e < now then .unauthorized "Token expired"
          else .proceed d

/-- A cart route behind the auth gate: when the gate rejects, the
cart-service operation never runs, so the stored cart is unchanged;
when it proceeds, the operation's outcome is persisted as usual. -/
def authThenRun (authHeader : AuthHeader)
    (verify : String → TokenVerification) (now : Int)
    (op : Option Cart → Except ApiError Cart) (cartOpt : Option Cart) :
    Option Cart :=
  match authGate authHeader verify now with
  | .unauthorized _ => cartOpt
  | .proceed _ => persistedCart cartOpt (op cartOpt)

/-- The invariant of the data model: at most one `CartItem` per
distinct product id within a cart, i.e. the list of the items' product
ids has no duplicate. -/
def cartInv (c : Cart) : Prop :=
  (c.cartItems.map (fun item => item.product._id)).Nodup

instance (c : Cart) : Decidable (cartInv c) := by
  unfold cartInv; infer_instance

/-- The invariant `cartInv` lifted to the stored state: an absent cart satisfies it
vacuously. -/
def optInv : Option Cart → Prop
  | none => True
  | some c => cartInv c

instance (cartOpt : Option Cart) : Decidable (optInv cartOpt) := by
  cases cartOpt <;> simp only [optInv] <;> infer_instance

/-! Concrete sample documents used to instantiate the theorems. -/

def sampleProduct : Product := ⟨1, 100⟩

def sampleProduct2 : Product := ⟨2, 30⟩

def sampleProduct3 : Product := ⟨3, 7⟩

def sampleProducts : List Product := [sampleProduct, sampleProduct2, sampleProduct3]

def sampleUser : User :=
  { email := "alice@qkart.test", walletMoney := 500, address := "221B Baker Street" }

def brokeUser : User :=
  { email := "bob@qkart.test", walletMoney := 10, address := "742 Evergreen Terrace" }

def sampleCart : Cart :=
  { email := "alice@qkart.test",
    cartItems := [⟨sampleProduct, 2⟩, ⟨sampleProduct2, 1⟩],
    paymentOption := default_payment_option }

def emptyCart : Cart :=
  { email := "alice@qkart.test", cartItems := [], paymentOption := default_payment_option }

def verifyMalformed : String → TokenVerification := fun _ => .malformed

def verifyRefresh : String → TokenVerification :=
  fun _ => .decoded ⟨"refresh", some 1700000000⟩

def verifyAccessExpired : String → TokenVerification :=
  fun _ => .decoded ⟨"access", some 5⟩

def verifyAccessNoExp : String → TokenVerification :=
  fun _ => .decoded ⟨"access", none⟩

def verifyAccessExpZero : String → TokenVerification :=
  fun _ => .decoded ⟨"access", some 0⟩

/-! Helper lemmas about the embedded operations. -/

theorem totalCost_foldl (l : List CartItem) (a : Int) :
    l.foldl (fun acc item => acc + item.product.cost * item.quantity) a
      = a + (l.map (fun item => item.product.cost * item.quantity)).sum := by
  induction l generalizing a with
  | nil => simp
  | cons x xs ih =>
    simp only [List.foldl_cons, List.map_cons, List.sum_cons, ih]
    ring

theorem totalCost_eq_sum (l : List CartItem) :
    totalCost l = (l.map (fun item => item.product.cost * item.quantity)).sum := by
  unfold totalCost
  rw [totalCost_foldl]
  ring

theorem not_mem_map_of_any_false (pid : Nat) (l : List CartItem)
    (h : l.any (fun item => item.product._id == pid) = false) :
    pid ∉ l.map (fun item => item.product._id) := by
  intro hmem
  rw [List.mem_map] at hmem
  obtain ⟨item, hitem, hid⟩ := hmem
  rw [List.any_eq_false] at h
  exact h item hitem (by simp [hid])

theorem countP_eq_one_of_nodup (pid : Nat) (l : List CartItem)
    (hnd : (l.map (fun item => item.product._id)).Nodup)
    (hmem : l.any (fun item => item.product._id == pid) = true) :
    l.countP (fun item => item.product._id == pid) = 1 := by
  induction l with
  | nil => simp at hmem
  | cons x xs ih =>
    rw [List.map_cons, List.nodup_cons] at hnd
    by_cases hx : x.product._id = pid
    · have hz : xs.countP (fun item => item.product._id == pid) = 0 := by
        rw [List.countP_eq_zero]
        intro item hitem hbeq
        have hi : item.product._id = pid := by simpa using hbeq
        exact hnd.1 (List.mem_map.mpr ⟨item, hitem, by rw [hi, hx]⟩)
      rw [List.countP_cons, hz]
      simp [hx]
    · have hxs : xs.any (fun item => item.product._id == pid) = true := by
        rw [List.any_cons] at hmem
        simpa [hx] using hmem
      rw [List.countP_cons]
      simp [hx, ih hnd.2 hxs]

theorem find?_id_eq (products : List Product) (pid : Nat) (p : Product)
    (h : products.find? (fun q => q._id == pid) = some p) : p._id = pid := by
  have := List.find?_some h
  simpa using this

theorem nodup_append_singleton {α : Type} {l : List α} {a : α}
    (h : l.Nodup) (ha : a ∉ l) : (l ++ [a]).Nodup := by
  induction l with
  | nil => simp
  | cons x xs ih =>
    rw [List.cons_append, List.nodup_cons]
    rw [List.nodup_cons] at h
    refine ⟨?_, ih h.2 (fun hm => ha (List.mem_cons_of_mem x hm))⟩
    intro hmem
    rw [List.mem_append] at hmem
    cases hmem with
    | inl h1 => exact h.1 h1
    | inr h2 =>
      rw [List.mem_singleton] at h2
      exact ha (h2 ▸ List.mem_cons_self x xs)

theorem map_setQuantityAt (q : Int) (l : List CartItem) (i : Nat) :
    (setQuantityAt q l i).map (fun item => item.product._id)
      = l.map (fun item => item.product._id) := by
  induction l generalizing i with
  | nil => rfl
  | cons x xs ih =>
    cases i with
    | zero => simp [setQuantityAt]
    | succ n => simp [setQuantityAt, ih]

theorem nodup_map_filter (p : CartItem → Bool) (l : List CartItem)
    (h : (l.map (fun item => item.product._id)).Nodup) :
    ((l.filter p).map (fun item => item.product._id)).Nodup :=
  h.sublist ((List.filter_sublist l).map (fun item => item.product._id))

theorem checkout_ok_items_nil (user : User) (cartOpt : Option Cart)
    (r : CheckoutResult) (h : checkout user cartOpt = .ok r) :
    r.cart.cartItems = [] := by
  unfold checkout at h
  cases cartOpt with
  | none => simp at h
  | some c =>
    simp only at h
    split at h
    · simp at h
    · split at h
      · simp at h
      · split at h
        · simp at h
        · rw [Except.ok.injEq] at h
          subst h
          rfl

theorem findIndex_eq_none_of_any_false (p : CartItem → Bool) (l : List CartItem)
    (h : l.any p = false) : findIndex p l = none := by
  induction l with
  | nil => rfl
  | cons x xs ih =>
    rw [List.any_cons, Bool.or_eq_false_iff] at h
    simp [findIndex, h.1, ih h.2]

theorem findIndex_get? (p : CartItem → Bool) (l : List CartItem) (i : Nat)
    (h : findIndex p l = some i) :
    ∃ item, l.get? i = some item ∧ p item = true := by
  induction l generalizing i with
  | nil => simp [findIndex] at h
  | cons x xs ih =>
    by_cases hx : p x
    · simp [findIndex, hx] at h
      subst h
      exact ⟨x, rfl, hx⟩
    · simp [findIndex, hx] at h
      obtain ⟨j, hj, hij⟩ := h
      obtain ⟨item, h1, h2⟩ := ih j hj
      subst hij
      exact ⟨item, by simpa using h1, h2⟩

theorem setQuantityAt_get?_self (q : Int) (l : List CartItem) (i : Nat)
    (item : CartItem) (h : l.get? i = some item) :
    (setQuantityAt q l i).get? i = some { item with quantity := q } := by
  induction l generalizing i with
  | nil => simp at h
  | cons x xs ih =>
    cases i with
    | zero =>
      rw [List.get?_cons_zero, Option.some.injEq] at h
      subst h
      rfl
    | succ n => simpa [setQuantityAt] using ih n h

theorem setQuantityAt_get?_ne (q : Int) (l : List CartItem) (i j : Nat)
    (h : j ≠ i) : (setQuantityAt q l i).get? j = l.get? j := by
  induction l generalizing i j with
  | nil => rfl
  | cons x xs ih =>
    cases i with
    | zero =>
      cases j with
      | zero => exact absurd rfl h
      | succ m => rfl
    | succ n =>
      cases j with
      | zero => rfl
      | succ m =>
        simpa [setQuantityAt] using ih n m (fun hh => h (by rw [hh]))

theorem filter_eq_self_of_any_false (pid : Nat) (l : List CartItem)
    (h : l.any (fun item => item.product._id == pid) = false) :
    l.filter (fun item => item.product._id != pid) = l := by
  induction l with
  | nil => rfl
  | cons x xs ih =>
    rw [List.any_cons, Bool.or_eq_false_iff] at h
    rw [List.filter_cons, ih h.2]
    simp [bne, h.1]

theorem filter_length_lt_of_any_true (pid : Nat) (l : List CartItem)
    (h : l.any (fun item => item.product._id == pid) = true) :
    (l.filter (fun item => item.product._id != pid)).length < l.length := by
  induction l with
  | nil => simp at h
  | cons x xs ih =>
    by_cases hx : (x.product._id == pid) = true
    · have hle := List.length_filter_le (fun item => item.product._id != pid) xs
      have hpx : (x.product._id != pid) = false := by simp [bne, hx]
      rw [List.filter_cons, hpx]
      simp only [Bool.false_eq_true, if_false, List.length_cons]
      omega
    · have hx' : (x.product._id == pid) = false := Bool.eq_false_iff.mpr hx
      rw [List.any_cons, hx', Bool.false_or] at h
      have hlt := ih h
      have hpx : (x.product._id != pid) = true := by simp [bne, hx']
      rw [List.filter_cons, hpx]
      simp only [if_true, List.length_cons]
      omega

/-! Theorems settling the claims. -/

/-- C4: when the user's cart (satisfying the one-item-per-product-id
invariant) already holds an item with the given product id and the
product exists in the catalog, `addProductToCart` throws BadRequest
400, the persisted cart is unchanged, and it still holds exactly one
item for that product id. -/
theorem addProduct_duplicate_rejected
    (user : User) (products : List Product) (cart : Cart)
    (pid : Nat) (q : Int) (prod : Product)
    (hinv : cartInv cart)
    (hp : products.find? (fun p => p._id == pid) = some prod)
    (hin : cart.cartItems.any (fun item => item.product._id == pid) = true) :
    addProductToCart user products (some cart) pid q
      = .error ⟨400, "Product already in cart. Use the cart sidebar to update or remove product from cart"⟩ ∧
    persistedCart (some cart) (addProductToCart user products (some cart) pid q)
      = some cart ∧
    cart.cartItems.countP (fun item => item.product._id == pid) = 1 := by
  have herr : addProductToCart user products (some cart) pid q
      = .error ⟨400, "Product already in cart. Use the cart sidebar to update or remove product from cart"⟩ := by
    unfold addProductToCart
    rw [hp]
    simp [hin]
  refine ⟨herr, by rw [herr]; rfl, countP_eq_one_of_nodup pid cart.cartItems hinv hin⟩

/-- C5: every cart-service operation preserves the at-most-one-item
per-product-id invariant of the persisted cart, on success and on
failure alike. -/
theorem cart_ops_preserve_unique_product_ids
    (user : User) (products : List Product) (cartOpt : Option Cart)
    (pid : Nat) (q : Int)
    (hinv : optInv cartOpt) :
    optInv (persistedCart cartOpt (getCartByUser cartOpt)) ∧
    optInv (persistedCart cartOpt (addProductToCart user products cartOpt pid q)) ∧
    optInv (persistedCart cartOpt (updateProductInCart user products cartOpt pid q)) ∧
    optInv (persistedCart cartOpt (deleteProductFromCart user cartOpt pid)) ∧
    optInv ((runCheckout user cartOpt).cartOpt) := by
  refine ⟨?_, ?_, ?_, ?_, ?_⟩
  · cases cartOpt with
    | none => simp [getCartByUser, persistedCart, optInv]
    | some c => simpa [getCartByUser, persistedCart, optInv] using hinv
  · cases cartOpt with
    | none =>
      cases hfind : products.find? (fun p => p._id == pid) with
      | none => simp [addProductToCart, hfind, persistedCart, optInv]
      | some prod => simp [addProductToCart, hfind, persistedCart, optInv, cartInv]
    | some c =>
      cases hfind : products.find? (fun p => p._id == pid) with
      | none =>
        simpa [addProductToCart, hfind, persistedCart, optInv] using hinv
      | some prod =>
        by_cases hany : c.cartItems.any (fun item => item.product._id == pid) = true
        · simpa [addProductToCart, hfind, hany, persistedCart, optInv] using hinv
        · have hany' : c.cartItems.any (fun item => item.product._id == pid) = false :=
            Bool.eq_false_iff.mpr hany
          have hnotmem := not_mem_map_of_any_false pid c.cartItems hany'
          have hpid := find?_id_eq products pid prod hfind
          have hgoal : ((c.cartItems ++ [(⟨prod, q⟩ : CartItem)]).map
                (fun item => item.product._id)).Nodup := by
            rw [List.map_append]
            exact nodup_append_singleton hinv (by simpa [hpid] using hnotmem)
          simpa [addProductToCart, hfind, hany', persistedCart, optInv, cartInv] using hgoal
  · cases cartOpt with
    | none => simp [updateProductInCart, persistedCart, optInv]
    | some c =>
      cases hfind : products.find? (fun p => p._id == pid) with
      | none => simpa [updateProductInCart, hfind, persistedCart, optInv] using hinv
      | some prod =>
        cases hidx : findIndex (fun ele => ele.product._id == pid) c.cartItems with
        | none => simpa [updateProductInCart, hfind, hidx, persistedCart, optInv] using hinv
        | some i =>
          have hgoal : ((setQuantityAt q c.cartItems i).map
              (fun item => item.product._id)).Nodup := by
            rw [map_setQuantityAt]
            exact hinv
          simpa [updateProductInCart, hfind, hidx, persistedCart, optInv, cartInv] using hgoal
  · cases cartOpt with
    | none => simp [deleteProductFromCart, persistedCart, optInv]
    | some c =>
      by_cases hlen : (c.cartItems.length
          == (c.cartItems.filter (fun item => item.product._id != pid)).length) = true
      · simpa [deleteProductFromCart, hlen, persistedCart, optInv] using hinv
      · have hlen' := Bool.eq_false_iff.mpr hlen
        have hgoal := nodup_map_filter (fun item => item.product._id != pid) c.cartItems hinv
        simpa [deleteProductFromCart, hlen', persistedCart, optInv, cartInv] using hgoal
  · cases hck : checkout user cartOpt with
    | error e =>
      simpa [runCheckout, hck, optInv] using hinv
    | ok r =>
      have hnil := checkout_ok_items_nil user cartOpt r hck
      simp [runCheckout, hck, optInv, cartInv, hnil]

/-- Witness for C5 at the sample documents. -/
theorem cart_ops_preserve_witness :
    optInv (persistedCart (some sampleCart) (getCartByUser (some sampleCart))) ∧
    optInv (persistedCart (some sampleCart)
      (addProductToCart sampleUser sampleProducts (some sampleCart) 3 2)) ∧
    optInv (persistedCart (some sampleCart)
      (updateProductInCart sampleUser sampleProducts (some sampleCart) 3 2)) ∧
    optInv (persistedCart (some sampleCart)
      (deleteProductFromCart sampleUser (some sampleCart) 3)) ∧
    optInv ((runCheckout sampleUser (some sampleCart)).cartOpt) :=
  cart_ops_preserve_unique_product_ids sampleUser sampleProducts (some sampleCart) 3 2
    (by decide)

/-- C6: when the cart exists, the product exists in the catalog, and
the cart already holds an item for that product id (at position `i`),
`updateProductInCart` overwrites that item's quantity and leaves every
other item, the list of product ids, the email and the payment option
unchanged; if the cart is absent, the product unknown, or the product
not in the cart, it throws BadRequest 400. -/
theorem updateProduct_frame
    (user : User) (products : List Product) (cart : Cart) (pid : Nat) (q : Int)
    (prod : Product) (i j : Nat) (item : CartItem) :
    (updateProductInCart user products none pid q
      = .error ⟨400, "User does not have a cart. Use POST to create cart and add a product"⟩) ∧
    (products.find? (fun p => p._id == pid) = none →
      updateProductInCart user products (some cart) pid q
        = .error ⟨400, "Product doesn't exist in database"⟩) ∧
    (products.find? (fun p => p._id == pid) = some prod →
      cart.cartItems.any (fun ele => ele.product._id == pid) = false →
      updateProductInCart user products (some cart) pid q
        = .error ⟨400, "Product not in cart"⟩) ∧
    (products.find? (fun p => p._id == pid) = some prod →
      findIndex (fun ele => ele.product._id == pid) cart.cartItems = some i →
      cart.cartItems.get? i = some item →
      updateProductInCart user products (some cart) pid q
        = .ok { email := cart.email,
                cartItems := setQuantityAt q cart.cartItems i,
                paymentOption := cart.paymentOption } ∧
      item.product._id = pid ∧
      (setQuantityAt q cart.cartItems i).get? i = some { item with quantity := q } ∧
      (j ≠ i → (setQuantityAt q cart.cartItems i).get? j = cart.cartItems.get? j) ∧
      (setQuantityAt q cart.cartItems i).map (fun it => it.product._id)
        = cart.cartItems.map (fun it => it.product._id)) := by
  refine ⟨rfl, ?_, ?_, ?_⟩
  · intro hfind
    simp [updateProductInCart, hfind]
  · intro hfind hany
    have hidx := findIndex_eq_none_of_any_false (fun ele => ele.product._id == pid)
      cart.cartItems hany
    simp [updateProductInCart, hfind, hidx]
  · intro hfind hidx hget
    obtain ⟨item', hget', hp⟩ := findIndex_get? _ _ i hidx
    rw [hget] at hget'
    rw [Option.some.injEq] at hget'
    subst hget'
    refine ⟨?_, by simpa using hp,
      setQuantityAt_get?_self q cart.cartItems i item hget,
      fun hji => setQuantityAt_get?_ne q cart.cartItems i j hji,
      map_setQuantityAt q cart.cartItems i⟩
    simp [updateProductInCart, hfind, hidx]

/-- Witness for C6: all four branches at the sample documents —
absent cart, unknown product id 99, product 3 not in the cart, and a
successful quantity overwrite on product 2 at position 1 (position 0
untouched). -/
theorem updateProduct_frame_witness :
    updateProductInCart sampleUser sampleProducts none 2 9
      = .error ⟨400, "User does not have a cart. Use POST to create cart and add a product"⟩ ∧
    updateProductInCart sampleUser sampleProducts (some sampleCart) 99 9
      = .error ⟨400, "Product doesn't exist in database"⟩ ∧
    updateProductInCart sampleUser sampleProducts (some sampleCart) 3 9
      = .error ⟨400, "Product not in cart"⟩ ∧
    updateProductInCart sampleUser sampleProducts (some sampleCart) 2 9
      = .ok { email := sampleCart.email,
              cartItems := setQuantityAt 9 sampleCart.cartItems 1,
              paymentOption := sampleCart.paymentOption } ∧
    (setQuantityAt 9 sampleCart.cartItems 1).get? 1 = some ⟨sampleProduct2, 9⟩ ∧
    (setQuantityAt 9 sampleCart.cartItems 1).get? 0 = sampleCart.cartItems.get? 0 ∧
    (setQuantityAt 9 sampleCart.cartItems 1).map (fun it => it.product._id)
      = sampleCart.cartItems.map (fun it => it.product._id) := by
  have h4 := (updateProduct_frame sampleUser sampleProducts sampleCart 2 9
    sampleProduct2 1 0 ⟨sampleProduct2, 1⟩).2.2.2 (by decide) (by decide) (by decide)
  exact ⟨(updateProduct_frame sampleUser sampleProducts sampleCart 2 9
      sampleProduct2 1 0 ⟨sampleProduct2, 1⟩).1,
    (updateProduct_frame sampleUser sampleProducts sampleCart 99 9
      sampleProduct2 1 0 ⟨sampleProduct2, 1⟩).2.1 (by decide),
    (updateProduct_frame sampleUser sampleProducts sampleCart 3 9
      sampleProduct3 1 0 ⟨sampleProduct2, 1⟩).2.2.1 (by decide) (by decide),
    h4.1, h4.2.2.1, h4.2.2.2.1 (by decide), h4.2.2.2.2⟩

/-- C7: with an existing cart, deleting a product id with no matching
item throws BadRequest 400 and the persisted cart is unchanged; when a
matching item is present the call persists the filtered, strictly
smaller cart with the email and payment option untouched. -/
theorem deleteProduct_behavior (user : User) (cart : Cart) (pid : Nat) :
    (cart.cartItems.any (fun item => item.product._id == pid) = false →
      deleteProductFromCart user (some cart) pid = .error ⟨400, "Product not in cart"⟩ ∧
      persistedCart (some cart) (deleteProductFromCart user (some cart) pid) = some cart) ∧
    (cart.cartItems.any (fun item => item.product._id == pid) = true →
      deleteProductFromCart user (some cart) pid
        = .ok { email := cart.email,
                cartItems := cart.cartItems.filter (fun item => item.product._id != pid),
                paymentOption := cart.paymentOption } ∧
      (cart.cartItems.filter (fun item => item.product._id != pid)).length
        < cart.cartItems.length) := by
  constructor
  · intro hany
    have heq := filter_eq_self_of_any_false pid cart.cartItems hany
    have herr : deleteProductFromCart user (some cart) pid
        = .error ⟨400, "Product not in cart"⟩ := by
      simp [deleteProductFromCart, heq]
    exact ⟨herr, by rw [herr]; rfl⟩
  · intro hany
    have hlt := filter_length_lt_of_any_true pid cart.cartItems hany
    have hne : (cart.cartItems.length
        == (cart.cartItems.filter (fun item => item.product._id != pid)).length) = false := by
      rw [beq_eq_false_iff_ne]
      omega
    refine ⟨?_, hlt⟩
    simp [deleteProductFromCart, hne]

/-- Witness for C7: deleting absent product 3 fails and changes
nothing; deleting present product 1 persists the one-item cart. -/
theorem deleteProduct_behavior_witness :
    (deleteProductFromCart sampleUser (some sampleCart) 3
        = .error ⟨400, "Product not in cart"⟩ ∧
      persistedCart (some sampleCart) (deleteProductFromCart sampleUser (some sampleCart) 3)
        = some sampleCart) ∧
    (deleteProductFromCart sampleUser (some sampleCart) 1
        = .ok { email := sampleCart.email,
                cartItems := sampleCart.cartItems.filter (fun item => item.product._id != 1),
                paymentOption := sampleCart.paymentOption } ∧
      (sampleCart.cartItems.filter (fun item => item.product._id != 1)).length
        < sampleCart.cartItems.length) :=
  ⟨(deleteProduct_behavior sampleUser sampleCart 3).1 (by decide),
   (deleteProduct_behavior sampleUser sampleCart 1).2 (by decide)⟩

/-- Counterexample to C8 as stated: a token whose signature verifies,
whose type is "access" and whose exp field is `0` — a time in the past
at current time 1700000000 — is not rejected by the gate: it proceeds
to identity resolution, because `decoded.exp && decoded.exp < now`
treats the number `0` as falsy. -/
theorem auth_expired_falsy_exp_counterexample :
    (0 : Int) < 1700000000 ∧
    authGate (.bearer "tok") verifyAccessExpZero 1700000000
      = .proceed ⟨"access", some 0⟩ :=
  ⟨by decide, by decide⟩

/-- C8 (amended): for every request carrying a bearer header whose
token fails signature verification, whose decoded type is not
"access", or whose decoded exp field is nonzero (truthy) and in the
past, the auth gate rejects with Unauthorized 401 before any
cart-service operation runs, so the stored cart is unchanged. -/
theorem auth_gate_rejections
    (tok : String) (verify : String → TokenVerification) (now : Int)
    (d : TokenPayload) (e : Int)
    (op : Option Cart → Except ApiError Cart) (cartOpt : Option Cart) :
    (verify tok = .malformed →
      authGate (.bearer tok) verify now = .unauthorized "Invalid token" ∧
      authThenRun (.bearer tok) verify now op cartOpt = cartOpt) ∧
    (verify tok = .decoded d → d.type ≠ "access" →
      authGate (.bearer tok) verify now = .unauthorized "Not an access token" ∧
      authThenRun (.bearer tok) verify now op cartOpt = cartOpt) ∧
    (verify tok = .decoded d → d.type = "access" → d.exp = some e →
      e ≠ 0 → e < now →
      authGate (.bearer tok) verify now = .unauthorized "Token expired" ∧
      authThenRun (.bearer tok) verify now op cartOpt = cartOpt) := by
  refine ⟨?_, ?_, ?_⟩
  · intro hv
    have hg : authGate (.bearer tok) verify now = .unauthorized "Invalid token" := by
      simp [authGate, hv]
    exact ⟨hg, by simp [authThenRun, hg]⟩
  · intro hv ht
    have hg : authGate (.bearer tok) verify now = .unauthorized "Not an access token" := by
      simp [authGate, hv, ht]
    exact ⟨hg, by simp [authThenRun, hg]⟩
  · intro hv ht he hz hlt
    have hg : authGate (.bearer tok) verify now = .unauthorized "Token expired" := by
      simp [authGate, hv, ht, he, hz, hlt]
    exact ⟨hg, by simp [authThenRun, hg]⟩

/-- Witness for C8 (amended): the three rejection modes at concrete
tokens and time 1700000000, each leaving the sample stored cart
untouched behind a `getCartByUser` route. -/
theorem auth_gate_rejections_witness :
    (authGate (.bearer "tok") verifyMalformed 1700000000
        = .unauthorized "Invalid token" ∧
      authThenRun (.bearer "tok") verifyMalformed 1700000000
        getCartByUser (some sampleCart) = some sampleCart) ∧
    (authGate (.bearer "tok") verifyRefresh 1700000000
        = .unauthorized "Not an access token" ∧
      authThenRun (.bearer "tok") verifyRefresh 1700000000
        getCartByUser (some sampleCart) = some sampleCart) ∧
    (authGate (.bearer "tok") verifyAccessExpired 1700000000
        = .unauthorized "Token expired" ∧
      authThenRun (.bearer "tok") verifyAccessExpired 1700000000
        getCartByUser (some sampleCart) = some sampleCart) :=
  ⟨(auth_gate_rejections "tok" verifyMalformed 1700000000
      ⟨"access", none⟩ 1 getCartByUser (some sampleCart)).1 rfl,
   (auth_gate_rejections "tok" verifyRefresh 1700000000
      ⟨"refresh", some 1700000000⟩ 1 getCartByUser (some sampleCart)).2.1
      rfl (by decide),
   (auth_gate_rejections "tok" verifyAccessExpired 1700000000
      ⟨"access", some 5⟩ 5 getCartByUser (some sampleCart)).2.2
      rfl rfl rfl (by decide) (by decide)⟩

/-- C9: a token that passes signature verification, has type "access"
and carries no exp field — or a falsy (zero) exp — is never rejected
as expired: the gate proceeds to identity resolution. -/
theorem auth_falsy_exp_proceeds
    (tok : String) (verify : String → TokenVerification) (now : Int)
    (d : TokenPayload)
    (hv : verify tok = .decoded d)
    (ht : d.type = "access")
    (he : d.exp = none ∨ d.exp = some 0) :
    authGate (.bearer tok) verify now = .proceed d := by
  cases he with
  | inl hn => simp [authGate, hv, ht, hn]
  | inr hz => simp [authGate, hv, ht, hz]

/-- Witness for C9: a missing exp and a zero exp both proceed at time
1700000000. -/
theorem auth_falsy_exp_witness :
    authGate (.bearer "tok") verifyAccessNoExp 1700000000
      = .proceed ⟨"access", none⟩ ∧
    authGate (.bearer "tok") verifyAccessExpZero 1700000000
      = .proceed ⟨"access", some 0⟩ :=
  ⟨auth_falsy_exp_proceeds "tok" verifyAccessNoExp 1700000000
      ⟨"access", none⟩ rfl rfl (Or.inl rfl),
   auth_falsy_exp_proceeds "tok" verifyAccessExpZero 1700000000
      ⟨"access", some 0⟩ rfl rfl (Or.inr rfl)⟩

/-- C10: `addProductToCart` performs no validation on the quantity
argument: for any quantity, zero and negative included, when the
product exists in the catalog and is not already in the cart, the cart
is created with — or the item appended carrying — exactly that
quantity. -/
theorem addProduct_no_quantity_validation
    (user : User) (products : List Product) (cart : Cart) (pid : Nat) (q : Int)
    (prod : Product)
    (hp : products.find? (fun p => p._id == pid) = some prod) :
    addProductToCart user products none pid q
      = .ok { email := user.email, cartItems := [⟨prod, q⟩],
              paymentOption := default_payment_option } ∧
    (cart.cartItems.any (fun item => item.product._id == pid) = false →
      addProductToCart user products (some cart) pid q
        = .ok { cart with cartItems := cart.cartItems ++ [⟨prod, q⟩] }) := by
  constructor
  · simp [addProductToCart, hp]
  · intro hany
    simp [addProductToCart, hp, hany]

/-- Witness for C10: a negative quantity creates a cart and a zero
quantity is appended, both unvalidated. -/
theorem addProduct_no_quantity_validation_witness :
    addProductToCart sampleUser sampleProducts none 3 (-3)
      = .ok { email := sampleUser.email, cartItems := [⟨sampleProduct3, -3⟩],
              paymentOption := default_payment_option } ∧
    addProductToCart sampleUser sampleProducts (some sampleCart) 3 0
      = .ok { sampleCart with cartItems := sampleCart.cartItems ++ [⟨sampleProduct3, 0⟩] } :=
  ⟨(addProduct_no_quantity_validation sampleUser sampleProducts sampleCart 3 (-3)
      sampleProduct3 (by decide)).1,
   (addProduct_no_quantity_validation sampleUser sampleProducts sampleCart 3 0
      sampleProduct3 (by decide)).2 (by decide)⟩

/-- Witness for C4: adding `sampleProduct` to `sampleCart`, which
already contains it. -/
theorem addProduct_duplicate_witness :
    addProductToCart sampleUser sampleProducts (some sampleCart) 1 4
      = .error ⟨400, "Product already in cart. Use the cart sidebar to update or remove product from cart"⟩ ∧
    persistedCart (some sampleCart) (addProductToCart sampleUser sampleProducts (some sampleCart) 1 4)
      = some sampleCart ∧
    sampleCart.cartItems.countP (fun item => item.product._id == 1) = 1 :=
  addProduct_duplicate_rejected sampleUser sampleProducts sampleCart 1 4 sampleProduct
    (by decide) (by decide) (by decide)

/-- C1: for every user with an existing non-empty cart, a non-default
address, and wallet balance at least the cart total, checkout
succeeds, the persisted cart afterwards has zero items, and the wallet
balance decreases by exactly Σ (item.product.cost × item.quantity)
over the cart's items. -/
theorem checkout_success_empties_cart_and_debits_wallet
    (user : User) (cart : Cart)
    (hne : cart.cartItems ≠ [])
    (haddr : user.address ≠ default_address)
    (hbal : totalCost cart.cartItems ≤ user.walletMoney) :
    (runCheckout user (some cart)).result = .ok () ∧
    (runCheckout user (some cart)).cartOpt = some { cart with cartItems := [] } ∧
    (runCheckout user (some cart)).user.walletMoney
      = user.walletMoney
        - (cart.cartItems.map (fun item => item.product.cost * item.quantity)).sum := by
  have h1 : (cart.cartItems.length == 0) = false := by
    simpa [List.length_eq_zero] using hne
  have h3 : ¬ user.walletMoney
      < (cart.cartItems.map (fun item => item.product.cost * item.quantity)).sum := by
    rw [← totalCost_eq_sum]
    exact not_lt.mpr hbal
  unfold runCheckout checkout
  simp [h1, haddr, totalCost_eq_sum, h3]

/-- Witness for C1 at the sample documents. -/
theorem checkout_success_witness :
    (runCheckout sampleUser (some sampleCart)).result = .ok () ∧
    (runCheckout sampleUser (some sampleCart)).cartOpt
      = some { sampleCart with cartItems := [] } ∧
    (runCheckout sampleUser (some sampleCart)).user.walletMoney
      = sampleUser.walletMoney
        - (sampleCart.cartItems.map (fun item => item.product.cost * item.quantity)).sum :=
  checkout_success_empties_cart_and_debits_wallet sampleUser sampleCart
    (by decide) (by decide) (by decide)

/-- C2: for every user whose cart exists but holds zero items,
checkout throws BadRequest 400 and the stored state — in particular
the wallet balance — is unchanged. -/
theorem checkout_empty_cart_rejected (user : User) (cart : Cart)
    (hempty : cart.cartItems = []) :
    runCheckout user (some cart)
      = ⟨.error ⟨400, "Cart has no items"⟩, some cart, user⟩ := by
  unfold runCheckout checkout
  simp [hempty]

/-- Witness for C2 at the sample empty cart. -/
theorem checkout_empty_cart_witness :
    runCheckout sampleUser (some emptyCart)
      = ⟨.error ⟨400, "Cart has no items"⟩, some emptyCart, sampleUser⟩ :=
  checkout_empty_cart_rejected sampleUser emptyCart (by decide)

/-- C3: with an existing non-empty cart and a non-default address, if
the total strictly exceeds the wallet balance checkout throws
BadRequest 400 leaving cart and wallet unmodified; if the total is at
most the balance (equality included) checkout does not fail on the
balance check and succeeds. -/
theorem checkout_balance_check (user : User) (cart : Cart)
    (hne : cart.cartItems ≠ [])
    (haddr : user.address ≠ default_address) :
    (totalCost cart.cartItems > user.walletMoney →
      runCheckout user (some cart)
        = ⟨.error ⟨400, "Insufficient balance"⟩, some cart, user⟩) ∧
    (totalCost cart.cartItems ≤ user.walletMoney →
      (runCheckout user (some cart)).result = .ok ()) := by
  have h1 : (cart.cartItems.length == 0) = false := by
    simpa [List.length_eq_zero] using hne
  constructor
  · intro hover
    unfold runCheckout checkout
    simp [h1, haddr, hover]
  · intro hbal
    have h3 : ¬ (totalCost cart.cartItems > user.walletMoney) := not_lt.mpr hbal
    unfold runCheckout checkout
    simp [h1, haddr, h3]

/-- Witness for C3: both branches exercised, one with a wallet too
small for the sample cart, one with a sufficient wallet. -/
theorem checkout_balance_check_witness :
    runCheckout brokeUser (some sampleCart)
      = ⟨.error ⟨400, "Insufficient balance"⟩, some sampleCart, brokeUser⟩ ∧
    (runCheckout sampleUser (some sampleCart)).result = .ok () :=
  ⟨(checkout_balance_check brokeUser sampleCart (by decide) (by decide)).1 (by decide),
   (checkout_balance_check sampleUser sampleCart (by decide) (by decide)).2 (by decide)⟩

end Qkart
